import Mathlib

/-!
Verification of the Pharos MCP server core (src/index.ts).

The server has three parts that the claims talk about:
* the Query Executor `executePharosGraphQLQuery` (request construction,
  HTTP call, four-way outcome classification),
* the Tool Gateway (the `pharos_graphql_query` tool handler registered in
  `PharosMCP.init`, with its zod input schema),
* the transport router (the default `fetch` export).

The embedding below translates each of these from the TypeScript source.
The HTTP environment (what `fetch` and `response.json()` did) is modelled
as an explicit `FetchOutcome` value handed to the classifier; JSON values
are the inductive `Json`; JS string truncation `s.slice(0, n)` is
`jsSliceTo`, and `JSON.stringify(x, null, 2)` is `jsonStringifyPretty`.
-/

/-- A JSON value as handled by the server.  Numbers are modelled as
integers (the only numbers the server itself produces are HTTP status
codes); object fields keep their order, as JS objects do. -/
inductive Json where
  | null
  | bool (b : Bool)
  | num (n : Int)
  | str (s : String)
  | arr (elems : List Json)
  | obj (fields : List (String × Json))

/-- Field lookup on a JSON object (`j["key"]` in JS): first binding wins,
`none` on non-objects and missing keys. -/
def Json.getField : Json → String → Option Json
  | .obj fields, key => fields.lookup key
  | _, _ => none

/-- JS `String.prototype.slice(0, n)`: the first `n` characters of the
string (the source uses it only with start index 0). -/
def jsSliceTo (s : String) (n : Nat) : String := String.mk (s.data.take n)

/-- `listPrefixEq pat l` is true iff `pat` is an initial segment of `l`;
helper for `jsStartsWith`. -/
def listPrefixEq : List Char → List Char → Bool
  | [], _ => true
  | _ :: _, [] => false
  | a :: as, b :: bs => a = b && listPrefixEq as bs

/-- JS `s.startsWith(p)`. -/
def jsStartsWith (s p : String) : Bool := listPrefixEq p.data s.data

/-! ## Query Executor (src/index.ts lines 64-139) -/

/-- The fixed endpoint `PHAROS_GRAPHQL_ENDPOINT` (line 15). -/
def PHAROS_GRAPHQL_ENDPOINT : String := "https://pharos-api.ncats.io/graphql"

/-- The fixed `User-Agent` header value (line 68). -/
def pharosUserAgent : String :=
  "MCPPharosServer/1.0.0 (ModelContextProtocol; +https://modelcontextprotocol.io)"

/-- The request `executePharosGraphQLQuery` issues, before serialization:
URL, method, header list and the JSON body object (the code sends
`JSON.stringify` of that object). -/
structure UpstreamRequest where
  url : String
  method : String
  headers : List (String × String)
  body : Json

/-- The body object built at lines 71-74 (`vars` stands for the source's
`variables` parameter, a reserved word in Lean): a `query` field, plus a
`variables` field exactly when variables were supplied (the
`if (variables)` guard). -/
def buildRequestBody (query : String) (vars : Option Json) : Json :=
  Json.obj (("query", Json.str query) ::
    (match vars with
     | some v => [("variables", v)]
     | none => []))

/-- The deterministic request construction of lines 66-83: POST to the
fixed endpoint with the two fixed headers and the body object. -/
def buildUpstreamRequest (query : String) (vars : Option Json) : UpstreamRequest :=
  { url := PHAROS_GRAPHQL_ENDPOINT
    method := "POST"
    headers := [("Content-Type", "application/json"), ("User-Agent", pharosUserAgent)]
    body := buildRequestBody query vars }

/-- What `await response.json()` did for a given response: either it
succeeded with a parsed value, or it threw and the fallback
`await response.text()` produced the raw body text (lines 87-93). -/
inductive BodyParse where
  | json (v : Json)
  | notJson (rawText : String)

/-- An HTTP response as the classifier sees it: the numeric status and
the body-parse result. -/
structure HttpResponse where
  status : Nat
  body : BodyParse

/-- The outcome of the `fetch` call itself: either a response arrived, or
the call threw (network error, DNS, timeout, ...) with the message the
catch block extracts from the exception (lines 122-130). -/
inductive FetchOutcome where
  | success (response : HttpResponse)
  | failure (errMessage : String)

/-- `Response.ok` of the Fetch API: status in the inclusive range
200-299. -/
def responseOk (status : Nat) : Bool := 200 ≤ status && status ≤ 299

/-- The object returned at lines 94-102 when the body is not JSON:
message `"Pharos API Error <status>: Non-JSON response."` and extensions
carrying the status code and the raw text truncated to 1000 characters
(`errorText.slice(0, 1000)`). -/
def nonJsonErrorResult (status : Nat) (errorText : String) : Json :=
  Json.obj [("errors", Json.arr [Json.obj [
    ("message", Json.str ("Pharos API Error " ++ toString status ++ ": Non-JSON response.")),
    ("extensions", Json.obj [
      ("statusCode", Json.num status),
      ("responseText", Json.str (jsSliceTo errorText 1000))])]])]

/-- The object returned at lines 108-116 when `response.ok` is false:
message `"Pharos API HTTP Error <status>"` and extensions carrying the
status code and the parsed body. -/
def httpErrorResult (status : Nat) (responseBody : Json) : Json :=
  Json.obj [("errors", Json.arr [Json.obj [
    ("message", Json.str ("Pharos API HTTP Error " ++ toString status)),
    ("extensions", Json.obj [
      ("statusCode", Json.num status),
      ("responseBody", responseBody)])]])]

/-- The object returned by the catch block at lines 131-138 when the
fetch call itself threw: the exception's message and
`extensions.clientError = true`. -/
def transportErrorResult (message : String) : Json :=
  Json.obj [("errors", Json.arr [Json.obj [
    ("message", Json.str message),
    ("extensions", Json.obj [("clientError", Json.bool true)])]])]

/-- The classification performed by `executePharosGraphQLQuery`
(lines 85-139), as a function of what the HTTP environment did.  The
order mirrors the source: the surrounding catch handles a throwing
`fetch`; then `response.json()` is attempted (failure short-circuits to
the non-JSON result, whatever the status); then `response.ok` is
checked; otherwise the parsed body is returned verbatim.  Totality of
this function reflects that every path of the source returns a value and
nothing escapes the try/catch. -/
def executePharosGraphQLQuery (outcome : FetchOutcome) : Json :=
  match outcome with
  | .failure errMessage => transportErrorResult errMessage
  | .success r =>
    match r.body with
    | .notJson rawText => nonJsonErrorResult r.status rawText
    | .json responseBody =>
      if responseOk r.status then responseBody
      else httpErrorResult r.status responseBody

/-! ## Spec-side outcome taxonomy (spec §4.2 / §7)

The spec names four variants and assigns each a distinguishing payload:
`clientError` for TransportFailure, `responseText` (plus `statusCode`)
for NonJsonResponse, `responseBody` (plus `statusCode`) for
GraphQLHttpError, and a verbatim pass-through for Success.  The
definitions below follow the spec's words, to compare the source's
results against that taxonomy. -/

/-- The four outcome variants named by the spec. -/
inductive OutcomeVariant where
  | Success
  | GraphQLHttpError
  | NonJsonResponse
  | TransportFailure
deriving DecidableEq, Repr

/-- First element of the result's `errors` array, if any. -/
def firstError (j : Json) : Option Json :=
  match j.getField "errors" with
  | some (.arr (e :: _)) => some e
  | _ => none

/-- A field of the first error object. -/
def firstErrorField (j : Json) (key : String) : Option Json :=
  (firstError j).bind fun e => e.getField key

/-- A field of the first error's `extensions` object. -/
def firstErrorExtensionField (j : Json) (key : String) : Option Json :=
  (firstErrorField j "extensions").bind fun ext => ext.getField key

/-- Which spec variant a result object represents, judged by the
distinguishing extension fields the spec assigns to each variant. -/
def specOutcomeVariant (j : Json) : OutcomeVariant :=
  match firstErrorExtensionField j "clientError" with
  | some _ => .TransportFailure
  | none =>
    match firstErrorExtensionField j "responseText" with
    | some _ => .NonJsonResponse
    | none =>
      match firstErrorExtensionField j "responseBody" with
      | some _ => .GraphQLHttpError
      | none => .Success

/-! ## JSON serialization (the platform's `JSON.stringify(x, null, 2)`)

The gateway returns `JSON.stringify(result, null, 2)` as the text of its
response (line 56).  The model below follows the ECMAScript algorithm
for an indent of two spaces: strings are quoted with the standard JSON
escapes, empty arrays/objects print as `[]` / `\x7b\x7d`, and non-empty
ones put each element on its own line, indented two further spaces. -/

/-- Lower-case hex digit for a value below 16. -/
def hexDigit (n : Nat) : Char :=
  if n < 10 then Char.ofNat (48 + n) else Char.ofNat (87 + n)

/-- JSON escaping of a single character, as `JSON.stringify` does it. -/
def escapeJsonChar (c : Char) : String :=
  if c = '"' then "\\\""
  else if c = '\\' then "\\\\"
  else if c = '\n' then "\\n"
  else if c = '\r' then "\\r"
  else if c = '\t' then "\\t"
  else if c.toNat = 8 then "\\b"
  else if c.toNat = 12 then "\\f"
  else if c.toNat < 32 then
    "\\u00" ++ String.mk [hexDigit (c.toNat / 16), hexDigit (c.toNat % 16)]
  else String.singleton c

/-- A JSON string literal: quotes around the escaped characters. -/
def quoteJsonString (s : String) : String :=
  "\"" ++ String.join (s.data.map escapeJsonChar) ++ "\""

/-- `n` spaces of indentation. -/
def jsonIndentStr (n : Nat) : String := String.mk (List.replicate n ' ')

mutual

/-- Serialize a JSON value at indentation depth `ind`. -/
def stringifyAt (ind : Nat) : Json → String
  | Json.null => "null"
  | Json.bool b => if b then "true" else "false"
  | Json.num n => toString n
  | Json.str s => quoteJsonString s
  | Json.arr [] => "[]"
  | Json.arr (x :: xs) =>
      "[\n" ++ stringifyItemsAt (ind + 2) x xs ++ "\n" ++ jsonIndentStr ind ++ "]"
  | Json.obj [] => "\x7b\x7d"
  | Json.obj ((k, v) :: fs) =>
      "\x7b\n" ++ stringifyFieldsAt (ind + 2) k v fs ++ "\n" ++ jsonIndentStr ind ++ "\x7d"
termination_by j => sizeOf j

/-- Serialize the comma-separated, newline-delimited elements of a
non-empty array. -/
def stringifyItemsAt (ind : Nat) (x : Json) : List Json → String
  | [] => jsonIndentStr ind ++ stringifyAt ind x
  | y :: ys => jsonIndentStr ind ++ stringifyAt ind x ++ ",\n" ++ stringifyItemsAt ind y ys
termination_by l => 1 + sizeOf x + sizeOf l

/-- Serialize the comma-separated, newline-delimited fields of a
non-empty object (`k`, `v` are the first field, then the rest). -/
def stringifyFieldsAt (ind : Nat) (k : String) (v : Json) : List (String × Json) → String
  | [] => jsonIndentStr ind ++ quoteJsonString k ++ ": " ++ stringifyAt ind v
  | (k2, v2) :: gs =>
      jsonIndentStr ind ++ quoteJsonString k ++ ": " ++ stringifyAt ind v ++ ",\n" ++
        stringifyFieldsAt ind k2 v2 gs
termination_by l => 1 + sizeOf v + sizeOf l

end

/-- `JSON.stringify(j, null, 2)`. -/
def jsonStringifyPretty (j : Json) : String := stringifyAt 0 j

/-! ## Tool Gateway (src/index.ts lines 21-60) -/

/-- One element of the response envelope's `content` array; for this
server always `\x7b type: "text", text: ... \x7d`. -/
structure ContentItem where
  type : String
  text : String
deriving DecidableEq, Repr

/-- The value the tool handler returns to the protocol layer
(lines 52-58): a `content` array of items. -/
structure ResponseEnvelope where
  content : List ContentItem
deriving DecidableEq, Repr

/-- The `pharos_graphql_query` handler of lines 44-59, as a function of
the invocation and of what the HTTP environment did for the one request
the executor issues (`vars` is the source's `variables`).  The
`console.error` diagnostics are purely observational and are not
modelled.  Totality reflects that the handler always returns exactly one
envelope and throws nothing. -/
def pharosToolHandler (query : String) (vars : Option Json)
    (outcome : FetchOutcome) : ResponseEnvelope :=
  { content := [{ type := "text"
                  text := jsonStringifyPretty (executePharosGraphQLQuery outcome) }] }

/-- The zod schema `z.string()` of the `query` parameter (lines 35-39):
accepts exactly string values and returns them unchanged — no trimming,
rewriting or emptiness check. -/
def zodStringParse : Json → Option String
  | Json.str s => some s
  | _ => none

/-- The zod schema `z.record(z.any()).optional()` of the `variables`
parameter (lines 40-42): accepts an absent value or any object, with no
restriction on keys or values. -/
def zodRecordAnyOptionalAccepts : Option Json → Bool
  | none => true
  | some (Json.obj _) => true
  | some _ => false

/-- The declared input contract of the tool: the `query` value must
satisfy `z.string()` and the `variables` value, when present, must
satisfy `z.record(z.any())`. -/
def toolInputAccepts (query : Json) (vars : Option Json) : Bool :=
  (zodStringParse query).isSome && zodRecordAnyOptionalAccepts vars

/-! ## Transport routing (src/index.ts lines 156-179) -/

/-- What the default `fetch` export does with a request: hand it to the
SSE transport (`PharosMCP.serveSSE("/sse").fetch`), or answer directly
with a plain response of the given status, Content-Type and body. -/
inductive RouteResult where
  | sse
  | response (status : Nat) (contentType : String) (body : String)
deriving DecidableEq, Repr

/-- The body of the fallback response (lines 171-172). -/
def pharosNotFoundBody : String :=
  "Pharos MCP Server - Path not found.\nAvailable MCP paths:\n- /sse (for Server-Sent Events transport)"

/-- The routing of the default `fetch` export, as a function of the
request URL's pathname (lines 156-178): the SSE transport for `/sse`
or any path starting with `/sse/`, the fixed 404 plain-text response
otherwise. -/
def fetchRoute (pathname : String) : RouteResult :=
  if pathname = "/sse" then RouteResult.sse
  else if jsStartsWith pathname "/sse/" then RouteResult.sse
  else RouteResult.response 404 "text/plain" pharosNotFoundBody

/-! ## Claims -/

/-- C1, counterexample: an HTTP 500 response whose body is not JSON is
classified as the non-JSON variant, not as `GraphQLHttpError` — the
`response.json()` failure short-circuits before the `response.ok` check,
so the claim's "regardless of the shape of the response body" is false. -/
theorem C1_counterexample :
    specOutcomeVariant (executePharosGraphQLQuery
      (FetchOutcome.success ⟨500, BodyParse.notJson "Gateway Timeout"⟩)) ≠
      OutcomeVariant.GraphQLHttpError := by decide

/-- C1, amended: for every HTTP response with status ≥ 400 whose body
parses as JSON, the Query Executor classifies the outcome as
`GraphQLHttpError`, and the errors array element carries the original
status code in `extensions.statusCode`. -/
theorem C1_amended_http_error_classification (s : Nat) (b : Json) (h : 400 ≤ s) :
    specOutcomeVariant
      (executePharosGraphQLQuery (FetchOutcome.success ⟨s, BodyParse.json b⟩)) =
      OutcomeVariant.GraphQLHttpError ∧
    firstErrorExtensionField
      (executePharosGraphQLQuery (FetchOutcome.success ⟨s, BodyParse.json b⟩)) "statusCode" =
      some (Json.num s) := by
  have hok : responseOk s = false := by
    simp only [responseOk, Bool.and_eq_false_iff, decide_eq_false_iff_not]
    right; omega
  constructor <;>
    simp [executePharosGraphQLQuery, hok, httpErrorResult, specOutcomeVariant,
      firstErrorExtensionField, firstErrorField, firstError, Json.getField, List.lookup]

/-- C1, witness for the amended theorem at status 500 with a JSON body. -/
theorem C1_amended_witness :
    specOutcomeVariant
      (executePharosGraphQLQuery (FetchOutcome.success ⟨500, BodyParse.json Json.null⟩)) =
      OutcomeVariant.GraphQLHttpError ∧
    firstErrorExtensionField
      (executePharosGraphQLQuery (FetchOutcome.success ⟨500, BodyParse.json Json.null⟩))
      "statusCode" = some (Json.num 500) :=
  C1_amended_http_error_classification 500 Json.null (by decide)

/-- C2: for every 2xx response whose body parses as JSON, the Query
Executor returns the parsed body verbatim — whatever it contains,
including a GraphQL-level `errors` array — and the gateway's envelope
text is exactly the pretty-printed serialization of that body. -/
theorem C2_success_passthrough (q : String) (v : Option Json) (s : Nat) (b : Json)
    (h : 200 ≤ s ∧ s ≤ 299) :
    executePharosGraphQLQuery (FetchOutcome.success ⟨s, BodyParse.json b⟩) = b ∧
    pharosToolHandler q v (FetchOutcome.success ⟨s, BodyParse.json b⟩) =
      ⟨[⟨"text", jsonStringifyPretty b⟩]⟩ := by
  have hok : responseOk s = true := by
    simp only [responseOk, Bool.and_eq_true, decide_eq_true_eq]
    omega
  constructor <;> simp [pharosToolHandler, executePharosGraphQLQuery, hok]

/-- C2, witness: an HTTP 200 response whose body is a GraphQL-level
errors array is passed through unchanged. -/
theorem C2_witness :
    executePharosGraphQLQuery (FetchOutcome.success ⟨200, BodyParse.json
      (Json.obj [("errors", Json.arr [Json.obj [("message", Json.str "Syntax Error")]])])⟩) =
      Json.obj [("errors", Json.arr [Json.obj [("message", Json.str "Syntax Error")]])] ∧
    pharosToolHandler "\x7b bad" none (FetchOutcome.success ⟨200, BodyParse.json
      (Json.obj [("errors", Json.arr [Json.obj [("message", Json.str "Syntax Error")]])])⟩) =
      ⟨[⟨"text", jsonStringifyPretty
        (Json.obj [("errors", Json.arr [Json.obj [("message", Json.str "Syntax Error")]])])⟩]⟩ :=
  C2_success_passthrough "\x7b bad" none 200
    (Json.obj [("errors", Json.arr [Json.obj [("message", Json.str "Syntax Error")]])])
    (by decide)

/-- C3: for every response whose body fails JSON parsing, whatever the
HTTP status, the Query Executor produces the non-JSON result: it is
classified as `NonJsonResponse`, carries the status code in
`extensions.statusCode`, and carries the raw text truncated by
`slice(0, 1000)` — hence at most 1000 characters — in
`extensions.responseText`. -/
theorem C3_non_json_classification (s : Nat) (raw : String) :
    executePharosGraphQLQuery (FetchOutcome.success ⟨s, BodyParse.notJson raw⟩) =
      nonJsonErrorResult s raw ∧
    specOutcomeVariant (nonJsonErrorResult s raw) = OutcomeVariant.NonJsonResponse ∧
    firstErrorExtensionField (nonJsonErrorResult s raw) "statusCode" = some (Json.num s) ∧
    firstErrorExtensionField (nonJsonErrorResult s raw) "responseText" =
      some (Json.str (jsSliceTo raw 1000)) ∧
    (jsSliceTo raw 1000).length ≤ 1000 := by
  refine ⟨rfl, ?_, ?_, ?_, ?_⟩
  · simp [specOutcomeVariant, firstErrorExtensionField, firstErrorField, firstError,
      nonJsonErrorResult, Json.getField, List.lookup]
  · simp [firstErrorExtensionField, firstErrorField, firstError,
      nonJsonErrorResult, Json.getField, List.lookup]
  · simp [firstErrorExtensionField, firstErrorField, firstError,
      nonJsonErrorResult, Json.getField, List.lookup]
  · show (String.mk (raw.data.take 1000)).length ≤ 1000
    simp

/-- C4: for every failure of the fetch call itself, the Query Executor
returns the transport-failure object as data — classified
`TransportFailure`, carrying the exception's message and
`extensions.clientError = true`; totality of the classifier reflects
that no exception escapes the surrounding try/catch. -/
theorem C4_transport_failure (msg : String) :
    executePharosGraphQLQuery (FetchOutcome.failure msg) = transportErrorResult msg ∧
    specOutcomeVariant (transportErrorResult msg) = OutcomeVariant.TransportFailure ∧
    firstErrorField (transportErrorResult msg) "message" = some (Json.str msg) ∧
    firstErrorExtensionField (transportErrorResult msg) "clientError" =
      some (Json.bool true) := by
  refine ⟨rfl, ?_, ?_, ?_⟩ <;>
    simp [specOutcomeVariant, firstErrorExtensionField, firstErrorField, firstError,
      transportErrorResult, Json.getField, List.lookup]

/-- C5: for every invocation and every executor outcome, the tool
handler returns exactly one envelope whose content is a single `"text"`
item holding the pretty-printed JSON of the executor's result; the
handler is a total function, so nothing is thrown and no result is
absent. -/
theorem C5_envelope_shape (q : String) (v : Option Json) (o : FetchOutcome) :
    pharosToolHandler q v o =
      ⟨[⟨"text", jsonStringifyPretty (executePharosGraphQLQuery o)⟩]⟩ ∧
    (pharosToolHandler q v o).content.length = 1 :=
  ⟨rfl, rfl⟩

/-- C6, counterexample: the declared zod schema is plain `z.string()`,
so the empty query string does satisfy the declared input contract —
refuting the claim that it does not. -/
theorem C6_counterexample : ¬ (toolInputAccepts (Json.str "") none = false) := by decide

/-- C6, amended: the input contract requires `query` to be a string —
every string, including the empty one, is accepted and returned without
rewriting, trimming or further validation, while non-string values are
rejected. -/
theorem C6_amended_string_contract (s : String) :
    toolInputAccepts (Json.str s) none = true ∧
    zodStringParse (Json.str s) = some s ∧
    zodStringParse Json.null = none :=
  ⟨rfl, rfl, rfl⟩

/-- C7: the upstream request is a deterministic function of the
invocation: one POST to the fixed endpoint with the fixed
`Content-Type` and `User-Agent` headers, whose JSON body has a `query`
field holding the query string and a `variables` field exactly when
variables were supplied. -/
theorem C7_request_construction (q : String) (v : Option Json) :
    (buildUpstreamRequest q v).url = PHAROS_GRAPHQL_ENDPOINT ∧
    (buildUpstreamRequest q v).method = "POST" ∧
    (buildUpstreamRequest q v).headers =
      [("Content-Type", "application/json"), ("User-Agent", pharosUserAgent)] ∧
    (buildUpstreamRequest q v).body = buildRequestBody q v ∧
    (buildRequestBody q v).getField "query" = some (Json.str q) ∧
    ((buildRequestBody q v).getField "variables").isSome = v.isSome := by
  refine ⟨rfl, rfl, rfl, rfl, ?_, ?_⟩ <;>
    cases v <;> simp [buildRequestBody, Json.getField, List.lookup]

/-- C8, counterexample: the path `/sse/extra` is distinct from `/sse`
yet is routed to the event-stream transport rather than the 404
fallback, so it is not true that exactly one path accepts the transport
and every other path gets the 404. -/
theorem C8_counterexample :
    fetchRoute "/sse/extra" = RouteResult.sse ∧ "/sse/extra" ≠ "/sse" := by decide

/-- C8, amended: `/sse` and every path starting with `/sse/` are routed
to the event-stream transport; every other path receives the fixed
plain-text 404 response whose body names `/sse`. -/
theorem C8_amended_routing (p : String) (h1 : p ≠ "/sse")
    (h2 : jsStartsWith p "/sse/" = false) :
    fetchRoute p = RouteResult.response 404 "text/plain" pharosNotFoundBody ∧
    fetchRoute "/sse" = RouteResult.sse := by
  refine ⟨?_, by decide⟩
  simp [fetchRoute, h1, h2]

/-- C8, witness for the amended theorem at the unrecognized path
`/graphql`. -/
theorem C8_amended_witness :
    fetchRoute "/graphql" = RouteResult.response 404 "text/plain" pharosNotFoundBody ∧
    fetchRoute "/sse" = RouteResult.sse :=
  C8_amended_routing "/graphql" (by decide) (by decide)

/-- C9: the outcome classification and envelope assembly are
deterministic functions of the invocation and the upstream response:
two invocations with the same query, the same variables and identical
upstream outcomes produce identical envelopes. -/
theorem C9_deterministic (q : String) (v : Option Json) (o₁ o₂ : FetchOutcome)
    (h : o₁ = o₂) :
    pharosToolHandler q v o₁ = pharosToolHandler q v o₂ := by rw [h]

/-- C9, witness: two identical invocations against the same upstream
outcome yield the same envelope. -/
theorem C9_witness :
    pharosToolHandler "\x7b targets \x7d" none (FetchOutcome.failure "connection refused") =
      pharosToolHandler "\x7b targets \x7d" none (FetchOutcome.failure "connection refused") :=
  C9_deterministic "\x7b targets \x7d" none
    (FetchOutcome.failure "connection refused") (FetchOutcome.failure "connection refused") rfl

/-- C10: every path whose pathname starts with `/sse/` is routed to the
event-stream transport rather than the 404 fallback; such a path is
distinct from `/sse`, which is also routed to the transport, so more
than one distinct pathname reaches it. -/
theorem C10_prefix_routing (p : String) (h : jsStartsWith p "/sse/" = true) :
    fetchRoute p = RouteResult.sse ∧ p ≠ "/sse" ∧ fetchRoute "/sse" = RouteResult.sse := by
  refine ⟨?_, ?_, by decide⟩
  · by_cases hp : p = "/sse" <;> simp [fetchRoute, hp, h]
  · intro hp
    rw [hp] at h
    exact absurd h (by decide)

/-- C10, witness: two distinct `/sse/`-prefixed paths both reach the
event-stream transport. -/
theorem C10_witness :
    (fetchRoute "/sse/message" = RouteResult.sse ∧ "/sse/message" ≠ "/sse" ∧
      fetchRoute "/sse" = RouteResult.sse) ∧
    (fetchRoute "/sse/alt" = RouteResult.sse ∧ "/sse/alt" ≠ "/sse" ∧
      fetchRoute "/sse" = RouteResult.sse) :=
  ⟨C10_prefix_routing "/sse/message" (by decide), C10_prefix_routing "/sse/alt" (by decide)⟩
